import Mathlib

/-!
Verification of the debug panel views (`debugViews.ts`): the breakpoints
tree comparator, the debounced refresh schedulers and their handlers, the
variables view refresh callback, call-stack tree input selection and tree
selection synchronization, shutdown memento persistence, and the
breakpoints view body-size computation.

Machine integers of the source are modelled as `Nat`/`Int`; asynchronous
promise chains are modelled as pure error-monad computations; tree widget
state is modelled explicitly as records.
-/

/-! ## Breakpoint elements and the tree sorter (BreakpointsView) -/

/-- A URI as consumed by the breakpoints comparator: an authority and a
path. `first.uri` / `second.uri` in the source. -/
structure Uri where
  authority : String
  path : String
deriving DecidableEq, Repr

/-- Modelled from the spec: the source calls `uri.toString()` (from the
platform URI class, not in this fragment) to test whether two breakpoints
are in the same file; rendered as scheme, authority and path. -/
def uriToString (u : Uri) : String :=
  "file://" ++ u.authority ++ u.path

/-- Modelled from the spec: `resources.basenameOrAuthority` (from
`vs/base/common/resources`, not in this fragment) yields the basename of
the URI path, or the authority when the path is empty — "grouped by file
(basename/authority)". -/
def basenameOrAuthority (u : Uri) : String :=
  if u.path = "" then u.authority else (u.path.splitOn "/").getLastD ""

/-- Modelled from the spec: `String.prototype.localeCompare` — a
locale-aware, sign-consistent three-way string comparison; modelled here
over the code-point order on strings. -/
def localeCompare (a b : String) : Int :=
  if a < b then -1 else if b < a then 1 else 0

/-- The three kinds of element the breakpoints tree holds:
`ExceptionBreakpoint`, `FunctionBreakpoint`, and source `Breakpoint`
(with a URI, a line number and a column). -/
inductive BPElem where
  | exc (id : Nat)
  | fnc (id : Nat)
  | src (uri : Uri) (lineNumber : Nat) (column : Nat)
deriving DecidableEq, Repr

/-- The `sorter.compare` function installed on the breakpoints tree
(`BreakpointsView.renderBody`): the sequential `instanceof` checks of the
source, then the same-URI / line / column logic for source breakpoints. -/
def compareBp : BPElem → BPElem → Int
  | .exc _, _ => -1
  | _, .exc _ => 1
  | .fnc _, _ => -1
  | _, .fnc _ => 1
  | .src u1 l1 c1, .src u2 l2 c2 =>
    if uriToString u1 ≠ uriToString u2 then
      localeCompare (basenameOrAuthority u1) (basenameOrAuthority u2)
    else if l1 = l2 then (c1 : Int) - (c2 : Int)
    else (l1 : Int) - (l2 : Int)

/-- Whether an element is an exception breakpoint
(`instanceof ExceptionBreakpoint`). -/
def isExc : BPElem → Bool
  | .exc _ => true
  | _ => false

/-- Whether an element is a function breakpoint
(`instanceof FunctionBreakpoint`). -/
def isFnc : BPElem → Bool
  | .fnc _ => true
  | _ => false

/-! ## Breakpoints view body size -/

/-- `BreakpointsView.MAX_VISIBLE_FILES`. -/
def MAX_VISIBLE_FILES : Nat := 9

/-- The slice of the debug model the breakpoints view reads:
`getBreakpoints()`, `getExceptionBreakpoints()`, `getFunctionBreakpoints()`. -/
structure DebugModelBP where
  breakpoints : List BPElem
  exceptionBreakpoints : List BPElem
  functionBreakpoints : List BPElem
deriving Repr

/-- `BreakpointsView.getExpandedBodySize`: the sum of the three breakpoint
list lengths, clamped to `MAX_VISIBLE_FILES`, times the 22-pixel row
height. -/
def getExpandedBodySize (m : DebugModelBP) : Nat :=
  min MAX_VISIBLE_FILES
    (m.breakpoints.length + m.exceptionBreakpoints.length +
      m.functionBreakpoints.length) * 22

/-! ## Debounce scheduler and change handlers -/

/-- Modelled from the spec: `RunOnceScheduler` from `vs/base/common/async`
(not in this fragment) — a single-shot scheduler with a configured default
delay; `pending` holds the remaining timer when a run is scheduled. -/
structure RunOnceScheduler where
  delay : Nat
  pending : Option Nat
deriving DecidableEq, Repr

/-- `RunOnceScheduler.isScheduled()`. -/
def isScheduled (s : RunOnceScheduler) : Bool :=
  s.pending.isSome

/-- Modelled from the spec: "scheduling while already pending is a no-op
(the existing timer is not reset) unless explicitly requested immediate
(delay = 0)". -/
def schedule (s : RunOnceScheduler) (d : Nat) : RunOnceScheduler :=
  if d = 0 then { s with pending := some 0 }
  else if isScheduled s then s
  else { s with pending := some d }

/-- Timer expiry of the single-shot scheduler: when a run is pending it
fires exactly once and the scheduler returns to idle; the second component
counts the refreshes executed by this expiry. -/
def elapse (s : RunOnceScheduler) : RunOnceScheduler × Nat :=
  match s.pending with
  | some _ => ({ s with pending := none }, 1)
  | none => (s, 0)

/-- The variables view `onDidFocusStackFrame` handler: refresh immediately
(delay 0) when the tree is not visible (`getContentHeight()` is 0) or the
focus change is explicit; otherwise schedule with the scheduler's
configured delay (400 in the source). -/
def variablesFocusHandler (contentHeight : Nat) (explicit : Bool)
    (s : RunOnceScheduler) : RunOnceScheduler :=
  if contentHeight = 0 || explicit then schedule s 0 else schedule s s.delay

/-- The watch view `onDidChangeWatchExpressions` handler: schedule (delay
50 in the source) only when not already scheduled, and always record the
expression to reveal. -/
def watchExpressionsChangedHandler (s : RunOnceScheduler) (we : Option Nat) :
    RunOnceScheduler × Option Nat :=
  (if !isScheduled s then schedule s s.delay else s, we)

/-- The call-stack view `onDidChangeCallStack` handler: schedule (delay 50
in the source) only when not already scheduled. -/
def callStackChangedHandler (s : RunOnceScheduler) : RunOnceScheduler :=
  if !isScheduled s then schedule s s.delay else s

/-- The number of pending refreshes a single-shot scheduler holds. -/
def pendingRefreshes (s : RunOnceScheduler) : Nat :=
  if isScheduled s then 1 else 0

/-! ## Breakpoints view: change notification handler -/

/-- The breakpoints view state touched by `onBreakpointsChange`:
`minimumBodySize`, `maximumBodySize` (`none` models
`Number.POSITIVE_INFINITY`), whether the tree widget exists yet, and the
number of `tree.refresh()` calls performed. -/
structure BreakpointsViewState where
  minimumBodySize : Nat
  maximumBodySize : Option Nat
  hasTree : Bool
  treeRefreshCount : Nat
deriving DecidableEq, Repr

/-- `BreakpointsView.onBreakpointsChange`: recompute the minimum body
size, clamp the maximum body size when it is finite, and refresh the tree
immediately — this view has no debounce scheduler. -/
def onBreakpointsChange (m : DebugModelBP) (st : BreakpointsViewState) :
    BreakpointsViewState :=
  let st := { st with minimumBodySize := getExpandedBodySize m }
  let st :=
    match st.maximumBodySize with
    | some _ => { st with maximumBodySize := some st.minimumBodySize }
    | none => st
  if st.hasTree then { st with treeRefreshCount := st.treeRefreshCount + 1 }
  else st

/-! ## Variables view: debounced focus refresh callback -/

/-- A scope of a stack frame (`IScope`): `expensive` marks scopes that
should not be auto-expanded. -/
structure ScopeV where
  id : Nat
  expensive : Bool
deriving DecidableEq, Repr

/-- An element of the variables tree: a scope or some other element
(a variable, an expression, …). -/
inductive VElem where
  | scope (s : ScopeV)
  | other (id : Nat)
deriving DecidableEq, Repr

/-- The focused stack frame as the variables callback reads it:
`getScopes()` resolves to the frame's scope list. -/
structure StackFrameV where
  getScopes : List ScopeV
deriving DecidableEq, Repr

/-- The variables tree widget state: the elements currently present, the
expanded elements among them, and the highlighted element. -/
structure VTree where
  present : List VElem
  expanded : List VElem
  highlight : Option VElem
deriving DecidableEq, Repr

/-- `tree.expand(e)`: mark an element expanded when it is present in the
tree and not already expanded; otherwise leave the tree unchanged. -/
def expandOne (t : VTree) (e : VElem) : VTree :=
  if t.present.contains e && !(t.expanded.contains e) then
    { t with expanded := t.expanded ++ [e] }
  else t

/-- `tree.refresh()`: re-resolve the tree against the model; `newPresent`
is the element population after the refresh, and expansion survives
exactly for elements still present. -/
def refreshTree (t : VTree) (newPresent : List VElem) : VTree :=
  { t with present := newPresent,
           expanded := t.expanded.filter (fun e => newPresent.contains e) }

/-- The per-view preserved expansion state (`this.expandedElements`). -/
structure VariablesViewState where
  expandedElements : List VElem
deriving DecidableEq, Repr

/-- First phase of the variables `onFocusStackFrameScheduler` callback:
remember the currently expanded elements when there are some, clear the
tree highlight, refresh the tree, and re-expand every preserved element in
order. -/
def afterRestore (vs : VariablesViewState) (t : VTree)
    (newPresent : List VElem) : VariablesViewState × VTree :=
  let vs :=
    if t.expanded.length > 0 then { vs with expandedElements := t.expanded }
    else vs
  let t := { t with highlight := none }
  let t := refreshTree t newPresent
  (vs, vs.expandedElements.foldl expandOne t)

/-- The variables `onFocusStackFrameScheduler` callback: after the
refresh-and-restore phase, expand the first scope of the focused stack
frame when a frame is focused, nothing ended up expanded, the scope list
is non-empty and the first scope is not expensive. -/
def fireVariables (vs : VariablesViewState) (t : VTree)
    (focusedStackFrame : Option StackFrameV) (newPresent : List VElem) :
    VariablesViewState × VTree :=
  match afterRestore vs t newPresent with
  | (vs1, t1) =>
    match focusedStackFrame with
    | some sf =>
      if t1.expanded.length = 0 then
        match sf.getScopes with
        | s :: _ => if !s.expensive then (vs1, expandOne t1 (.scope s)) else (vs1, t1)
        | [] => (vs1, t1)
      else (vs1, t1)
    | none => (vs1, t1)

/-! ## Call-stack view: input choice and selection synchronization -/

/-- A debug process as the call-stack callback reads it:
`getAllThreads()` lists its thread identifiers. -/
structure DebugProcess where
  pid : Nat
  getAllThreads : List Nat
deriving DecidableEq, Repr

/-- The possible inputs of the call-stack tree: the whole debug model, a
single process, or a single thread. -/
inductive CallStackInput where
  | model
  | process (pid : Nat)
  | thread (pid : Nat) (tid : Nat)
deriving DecidableEq, Repr

/-- The `newTreeInput` choice of the `onCallStackChangeScheduler`
callback: outside multi-process view with at least one process, the sole
thread of the first process when it has exactly one thread, otherwise the
first process; in every other case the whole debug model. -/
def chooseNewTreeInput (isMultiProcessView : Bool)
    (processes : List DebugProcess) : CallStackInput :=
  match isMultiProcessView, processes with
  | false, p :: _ =>
    match p.getAllThreads with
    | [t] => .thread p.pid t
    | _ => .process p.pid
  | _, _ => .model

/-- The call-stack tree widget state for the input update: the current
input and counters of `refresh()` and `setInput()` calls. -/
structure CallStackTreeState where
  input : Option CallStackInput
  refreshCount : Nat
  setInputCount : Nat
deriving DecidableEq, Repr

/-- The tree update of the `onCallStackChangeScheduler` callback: refresh
when the chosen input is already the tree input, otherwise replace the
input. -/
def fireCallStackUpdate (isMultiProcessView : Bool)
    (processes : List DebugProcess) (t : CallStackTreeState) :
    CallStackTreeState :=
  let newTreeInput := chooseNewTreeInput isMultiProcessView processes
  if t.input = some newTreeInput then
    { t with refreshCount := t.refreshCount + 1 }
  else
    { t with input := some newTreeInput,
             setInputCount := t.setInputCount + 1 }

/-- A thread reference: its process id and thread id
(`thread.process` / `thread`). -/
structure ThreadRef where
  pid : Nat
  tid : Nat
deriving DecidableEq, Repr

/-- A stack frame reference: its thread and frame id. -/
structure FrameRef where
  thread : ThreadRef
  fid : Nat
deriving DecidableEq, Repr

/-- A node of the call-stack tree: a process, a thread, or a stack
frame. -/
inductive CSNode where
  | proc (pid : Nat)
  | thr (t : ThreadRef)
  | frm (f : FrameRef)
deriving DecidableEq, Repr

/-- The slice of the view-model read by `updateTreeSelection`. -/
structure CSViewModel where
  focusedProcess : Option Nat
  focusedThread : Option ThreadRef
  focusedStackFrame : Option FrameRef
deriving DecidableEq, Repr

/-- The call-stack tree widget state for selection synchronization:
whether the tree has an input yet, the selection, the expanded nodes, and
the last revealed node. -/
structure SelTree where
  hasInput : Bool
  selection : List CSNode
  expandedNodes : List CSNode
  revealed : Option CSNode
deriving DecidableEq, Repr

/-- `tree.expandAll(elements)`: expand every listed node not yet
expanded. -/
def expandAllNodes (t : SelTree) (ns : List CSNode) : SelTree :=
  { t with expandedNodes :=
      t.expandedNodes ++ ns.filter (fun n => !(t.expandedNodes.contains n)) }

/-- `CallStackView.updateTreeSelection`: a no-op without tree input; with
a focused thread, expand its process and the thread, then select and
reveal the focused stack frame when there is one; with no focused thread
but a focused process, select and reveal the process; otherwise clear the
selection. -/
def updateTreeSelection (vm : CSViewModel) (t : SelTree) : SelTree :=
  if !t.hasInput then t
  else
    match vm.focusedThread with
    | none =>
      match vm.focusedProcess with
      | none => { t with selection := [] }
      | some p => { t with selection := [.proc p], revealed := some (.proc p) }
    | some th =>
      let t := expandAllNodes t [.proc th.pid, .thr th]
      match vm.focusedStackFrame with
      | none => t
      | some sf => { t with selection := [.frm sf], revealed := some (.frm sf) }

/-! ## Promise chains and unexpected-error reporting -/

/-- The outcome of an asynchronous tree operation: success or failure with
an error message. -/
inductive PResult (α : Type) where
  | ok (a : α)
  | err (e : String)
deriving DecidableEq, Repr

/-- Modelled from the spec: `TPromise.then` sequencing (from
`vs/base/common/winjs.base`, not in this fragment) — a failure of the
first step skips the continuation and propagates to the end of the
chain. -/
def pbind {α β : Type} (p : PResult α) (f : α → PResult β) : PResult β :=
  match p with
  | .ok a => f a
  | .err e => .err e

/-- Sequencing a list of asynchronous steps (`sequence(...)`). -/
def pseq (steps : List (PResult Unit)) : PResult Unit :=
  steps.foldl (fun acc s => pbind acc (fun _ => s)) (.ok ())

/-- Modelled from the spec: `.done(null, errors.onUnexpectedError)` — a
failure of the chain is appended to the unexpected-error sink and nothing
is propagated to the caller. -/
def doneReport (p : PResult Unit) (sink : List String) : List String :=
  match p with
  | .ok _ => sink
  | .err e => sink ++ [e]

/-- The errors a chain outcome contributes to the sink. -/
def errOf (p : PResult Unit) : List String :=
  match p with
  | .ok _ => []
  | .err e => [e]

/-- The variables view debounced refresh chain: refresh, re-expand each
preserved element, optionally expand the first scope. -/
def variablesFireChain (refreshR : PResult Unit)
    (expandRs : List (PResult Unit)) (scopeR : PResult Unit) : PResult Unit :=
  pbind refreshR fun _ => pbind (pseq expandRs) fun _ => scopeR

/-- The variables refresh chain with its terminal error routing. -/
def variablesFireReport (refreshR : PResult Unit)
    (expandRs : List (PResult Unit)) (scopeR : PResult Unit)
    (sink : List String) : List String :=
  doneReport (variablesFireChain refreshR expandRs scopeR) sink

/-- The watch view debounced refresh chain: refresh then reveal. -/
def watchFireChain (refreshR revealR : PResult Unit) : PResult Unit :=
  pbind refreshR fun _ => revealR

/-- The watch refresh chain with its terminal error routing. -/
def watchFireReport (refreshR revealR : PResult Unit) (sink : List String) :
    List String :=
  doneReport (watchFireChain refreshR revealR) sink

/-- The call-stack update chain: set-input-or-refresh, then the selection
update. -/
def callStackFireChain (inputR selR : PResult Unit) : PResult Unit :=
  pbind inputR fun _ => selR

/-- The call-stack update chain with its terminal error routing. -/
def callStackFireReport (inputR selR : PResult Unit) (sink : List String) :
    List String :=
  doneReport (callStackFireChain inputR selR) sink

/-- The selection-driven refresh-and-highlight chain of the variables,
watch and breakpoints views (`onDidSelectExpression` /
`onDidSelectFunctionBreakpoint`): refresh the selected element, then
highlight it. -/
def selectHighlightChain (refreshR highlightR : PResult Unit) : PResult Unit :=
  pbind refreshR fun _ => highlightR

/-- The refresh-and-highlight chain with its terminal error routing. -/
def selectHighlightReport (refreshR highlightR : PResult Unit)
    (sink : List String) : List String :=
  doneReport (selectHighlightChain refreshR highlightR) sink

/-- The call-stack focus handler chain:
`updateTreeSelection().done(undefined, errors.onUnexpectedError)`. -/
def focusSelectionReport (selR : PResult Unit) (sink : List String) :
    List String :=
  doneReport selR sink

/-! ## Shutdown mementos -/

/-- The viewlet settings object: a partial map from memento keys to the
stored flags. -/
abbrev ViewletSettings : Type := String → Option Bool

/-- `VariablesView.MEMENTO`. -/
def VariablesView.MEMENTO : String := "variablesview.memento"

/-- `WatchExpressionsView.MEMENTO`. -/
def WatchExpressionsView.MEMENTO : String := "watchexpressionsview.memento"

/-- `CallStackView.MEMENTO`. -/
def CallStackView.MEMENTO : String := "callstackview.memento"

/-- `BreakpointsView.MEMENTO` (spelled as in the source). -/
def BreakpointsView.MEMENTO : String := "breakopintsview.memento"

/-- The assignment `settings[key] = value`. -/
def setSetting (s : ViewletSettings) (k : String) (v : Bool) : ViewletSettings :=
  fun k' => if k' = k then some v else s k'

/-- `VariablesView.shutdown`: store the negation of `isExpanded()` under
the view's memento key. `super.shutdown()` (from the view base class, not
in this fragment) is modelled from the spec as not touching the viewlet
settings. -/
def VariablesView.shutdown (isExpanded : Bool) (s : ViewletSettings) :
    ViewletSettings :=
  setSetting s VariablesView.MEMENTO (!isExpanded)

/-- `WatchExpressionsView.shutdown`: store the negation of `isExpanded()`
under the view's memento key. -/
def WatchExpressionsView.shutdown (isExpanded : Bool) (s : ViewletSettings) :
    ViewletSettings :=
  setSetting s WatchExpressionsView.MEMENTO (!isExpanded)

/-- `CallStackView.shutdown`: store the negation of `isExpanded()` under
the view's memento key. -/
def CallStackView.shutdown (isExpanded : Bool) (s : ViewletSettings) :
    ViewletSettings :=
  setSetting s CallStackView.MEMENTO (!isExpanded)

/-- `BreakpointsView.shutdown`: store the negation of `isExpanded()` under
the view's memento key. -/
def BreakpointsView.shutdown (isExpanded : Bool) (s : ViewletSettings) :
    ViewletSettings :=
  setSetting s BreakpointsView.MEMENTO (!isExpanded)

/-! ## Theorems -/

set_option maxRecDepth 8000

/-- Auxiliary: the modelled locale comparison is sign-antisymmetric. -/
theorem localeCompare_antisymm (a b : String) :
    localeCompare a b = - localeCompare b a := by
  unfold localeCompare
  rcases lt_trichotomy a b with h | h | h
  · simp [h, asymm h]
  · simp [h, lt_irrefl]
  · simp [h, asymm h]

/-- Claim C1 fails as stated: for two exception breakpoints the comparator
returns `-1` in both argument orders, so swapping the arguments does not
negate the sign. -/
theorem C1_counterexample :
    compareBp (BPElem.exc 0) (BPElem.exc 1) = -1 ∧
    compareBp (BPElem.exc 1) (BPElem.exc 0) = -1 ∧
    compareBp (BPElem.exc 0) (BPElem.exc 1) ≠
      - compareBp (BPElem.exc 1) (BPElem.exc 0) := by
  decide

/-- Claim C1 (amended): an exception breakpoint compares `-1` against any
second element (including another exception breakpoint); a non-exception
element compares `1` against an exception breakpoint; among non-exception
elements a function breakpoint compares `-1` first and `1` second; two
source breakpoints with distinct URI strings compare by locale comparison
of their basenames-or-authorities, and with equal URI strings by line
number and then by column; swapping the arguments negates the sign except
when both elements are exception breakpoints or both are function
breakpoints. -/
theorem C1_amended_thm (a b : BPElem) :
    (isExc a = true → compareBp a b = -1) ∧
    (isExc a = false → isExc b = true → compareBp a b = 1) ∧
    (isExc a = false → isExc b = false → isFnc a = true →
      compareBp a b = -1) ∧
    (isExc a = false → isExc b = false → isFnc a = false → isFnc b = true →
      compareBp a b = 1) ∧
    (∀ u1 l1 c1 u2 l2 c2, a = .src u1 l1 c1 → b = .src u2 l2 c2 →
      (uriToString u1 ≠ uriToString u2 →
        compareBp a b =
          localeCompare (basenameOrAuthority u1) (basenameOrAuthority u2)) ∧
      (uriToString u1 = uriToString u2 → l1 = l2 →
        compareBp a b = (c1 : Int) - (c2 : Int)) ∧
      (uriToString u1 = uriToString u2 → l1 ≠ l2 →
        compareBp a b = (l1 : Int) - (l2 : Int))) ∧
    (¬ (isExc a = true ∧ isExc b = true) →
      ¬ (isFnc a = true ∧ isFnc b = true) →
      compareBp a b = - compareBp b a) := by
  rcases a with i | i | ⟨u1, l1, c1⟩ <;> rcases b with j | j | ⟨u2, l2, c2⟩ <;>
    simp [compareBp, isExc, isFnc]
  constructor
  · intro u1' l1' c1' u2' l2' c2' h1 h2 h3 h4 h5 h6
    subst h1; subst h2; subst h3; subst h4; subst h5; subst h6
    refine ⟨fun h => by simp [compareBp, h], ?_, ?_⟩
    · intro h hl
      simp [compareBp, h, hl]
    · intro h hl
      simp [compareBp, h, hl]
  · by_cases h : uriToString u1 = uriToString u2
    · rw [if_pos h, if_pos h.symm]
      by_cases hl : l1 = l2
      · rw [if_pos hl, if_pos hl.symm]; omega
      · rw [if_neg hl, if_neg (fun hx => hl hx.symm)]; omega
    · rw [if_neg h, if_neg (fun hx => h hx.symm)]
      exact localeCompare_antisymm _ _

/-- Witness for C1 (amended): concrete evaluation at an exception/function
breakpoint pair. -/
theorem C1_amended_witness :
    compareBp (BPElem.exc 0) (BPElem.fnc 0) = -1 :=
  (C1_amended_thm (BPElem.exc 0) (BPElem.fnc 0)).1 rfl

/-- Claim C9: the breakpoints view expanded body size is
`min 9 (b + e + f) * 22`, never exceeds 198, and is 0 exactly when the
model holds no breakpoints of any kind. -/
theorem C9_thm (m : DebugModelBP) :
    getExpandedBodySize m =
      min 9 (m.breakpoints.length + m.exceptionBreakpoints.length +
        m.functionBreakpoints.length) * 22 ∧
    getExpandedBodySize m ≤ 198 ∧
    (getExpandedBodySize m = 0 ↔
      (m.breakpoints = [] ∧ m.exceptionBreakpoints = [] ∧
        m.functionBreakpoints = [])) := by
  unfold getExpandedBodySize MAX_VISIBLE_FILES
  refine ⟨rfl, ?_, ?_⟩
  · have : min 9 (m.breakpoints.length + m.exceptionBreakpoints.length +
        m.functionBreakpoints.length) ≤ 9 := Nat.min_le_left _ _
    omega
  · rw [← List.length_eq_zero, ← List.length_eq_zero (l := m.exceptionBreakpoints),
      ← List.length_eq_zero (l := m.functionBreakpoints)]
    omega

/-- Claim C2: with a non-zero configured delay, a change notification
arriving while a refresh is already scheduled leaves the scheduler
untouched — for the variables focus handler unless it requests an
immediate run (delay 0, which sets the timer to 0), and for the watch
expressions and call-stack handlers unconditionally. -/
theorem C2_thm (s : RunOnceScheduler) (contentHeight : Nat) (explicit : Bool)
    (we : Option Nat) (hs : isScheduled s = true) (hd : s.delay ≠ 0) :
    (contentHeight ≠ 0 → explicit = false →
      variablesFocusHandler contentHeight explicit s = s) ∧
    (contentHeight = 0 ∨ explicit = true →
      (variablesFocusHandler contentHeight explicit s).pending = some 0) ∧
    (watchExpressionsChangedHandler s we).1 = s ∧
    callStackChangedHandler s = s := by
  refine ⟨?_, ?_, ?_, ?_⟩
  · intro h1 h2
    simp [variablesFocusHandler, h1, h2, schedule, hd, hs]
  · intro h
    rcases h with h | h <;> simp [variablesFocusHandler, h, schedule]
  · simp [watchExpressionsChangedHandler, hs]
  · simp [callStackChangedHandler, hs]

/-- Witness for C2: a pending scheduler with delay 400 is left untouched
by the call-stack change handler. -/
theorem C2_thm_witness :
    isScheduled ⟨400, some 100⟩ = true ∧ (400 : Nat) ≠ 0 ∧
    callStackChangedHandler ⟨400, some 100⟩ = ⟨400, some 100⟩ :=
  ⟨by decide, by decide,
    (C2_thm ⟨400, some 100⟩ 5 false none (by decide) (by decide)).2.2.2⟩

/-- Claim C4: a view's single-shot scheduler holds at most one pending
refresh, before and after any schedule call and after each view's change
handler. -/
theorem C4_thm (s : RunOnceScheduler) (d contentHeight : Nat)
    (explicit : Bool) (we : Option Nat) :
    pendingRefreshes s ≤ 1 ∧
    pendingRefreshes (schedule s d) ≤ 1 ∧
    pendingRefreshes (variablesFocusHandler contentHeight explicit s) ≤ 1 ∧
    pendingRefreshes ((watchExpressionsChangedHandler s we).1) ≤ 1 ∧
    pendingRefreshes (callStackChangedHandler s) ≤ 1 := by
  refine ⟨?_, ?_, ?_, ?_, ?_⟩ <;> (unfold pendingRefreshes; split <;> omega)

/-- Auxiliary: `onBreakpointsChange` does not change whether the tree
widget exists. -/
theorem onBreakpointsChange_hasTree (m : DebugModelBP)
    (st : BreakpointsViewState) :
    (onBreakpointsChange m st).hasTree = st.hasTree := by
  unfold onBreakpointsChange
  cases hm : st.maximumBodySize <;> simp [hm] <;> split <;> rfl

/-- Auxiliary: with a tree widget present, `onBreakpointsChange` performs
exactly one immediate tree refresh. -/
theorem onBreakpointsChange_refreshCount (m : DebugModelBP)
    (st : BreakpointsViewState) (h : st.hasTree = true) :
    (onBreakpointsChange m st).treeRefreshCount = st.treeRefreshCount + 1 := by
  unfold onBreakpointsChange
  cases hm : st.maximumBodySize <;> simp [hm, h]

/-- Auxiliary: iterating `onBreakpointsChange` preserves whether the tree
widget exists. -/
theorem onBreakpointsChange_iterate_hasTree (m : DebugModelBP) (k : Nat)
    (st : BreakpointsViewState) :
    ((onBreakpointsChange m)^[k] st).hasTree = st.hasTree := by
  induction k generalizing st with
  | zero => rfl
  | succ j ih =>
    rw [Function.iterate_succ_apply, ih, onBreakpointsChange_hasTree]

/-- Claim C7 fails as stated: the breakpoints view has no debounce
scheduler — a burst of two breakpoint-change notifications performs two
immediate tree refreshes, not at most one. -/
theorem C7_counterexample :
    (onBreakpointsChange ⟨[], [], []⟩
      (onBreakpointsChange ⟨[], [], []⟩
        ⟨0, none, true, 0⟩)).treeRefreshCount = 2 := rfl

/-- Claim C7 (amended): the variables, watch-expressions and call-stack
views coalesce bursts through their debounce schedulers — after any burst
of change notifications a single timer expiry performs at most one
refresh — while the breakpoints view refreshes its tree immediately on
every notification, so a burst of n notifications performs n refreshes. -/
theorem C7_amended_thm (n contentHeight : Nat) (explicit : Bool)
    (we : Option Nat) (s : RunOnceScheduler) (m : DebugModelBP)
    (st : BreakpointsViewState) (h : st.hasTree = true) :
    (elapse ((variablesFocusHandler contentHeight explicit)^[n] s)).2 ≤ 1 ∧
    (elapse ((fun x => (watchExpressionsChangedHandler x we).1)^[n] s)).2 ≤ 1 ∧
    (elapse (callStackChangedHandler^[n] s)).2 ≤ 1 ∧
    ((onBreakpointsChange m)^[n] st).treeRefreshCount =
      st.treeRefreshCount + n := by
  have hel : ∀ x : RunOnceScheduler, (elapse x).2 ≤ 1 := by
    intro x; unfold elapse; cases x.pending <;> simp
  refine ⟨hel _, hel _, hel _, ?_⟩
  induction n with
  | zero => rfl
  | succ k ih =>
    rw [Function.iterate_succ_apply',
      onBreakpointsChange_refreshCount m _
        (by rw [onBreakpointsChange_iterate_hasTree]; exact h),
      ih]
    omega

/-- Witness for C7 (amended): a burst of three breakpoint-change
notifications on a view with a tree performs three refreshes. -/
theorem C7_amended_witness :
    (⟨0, none, true, 0⟩ : BreakpointsViewState).hasTree = true ∧
    ((onBreakpointsChange ⟨[], [], []⟩)^[3]
      (⟨0, none, true, 0⟩ : BreakpointsViewState)).treeRefreshCount = 0 + 3 :=
  ⟨rfl, (C7_amended_thm 3 1 false none ⟨50, none⟩ ⟨[], [], []⟩
    ⟨0, none, true, 0⟩ rfl).2.2.2⟩

/-- Claim C3: when the variables debounced action fires it refreshes the
tree and re-expands every preserved element (the previous expansion when
it was non-empty, the stored list otherwise); the first scope of the
focused stack frame is then expanded exactly when a frame is focused,
nothing ended up expanded, the scope list is non-empty and its head is not
expensive; in every other case no default expansion is performed. -/
theorem C3_thm (vs : VariablesViewState) (t : VTree)
    (sf : Option StackFrameV) (newPresent : List VElem) :
    (fireVariables vs t sf newPresent).1 = (afterRestore vs t newPresent).1 ∧
    (afterRestore vs t newPresent).1.expandedElements =
      (if t.expanded.length > 0 then t.expanded else vs.expandedElements) ∧
    (sf = none →
      (fireVariables vs t sf newPresent).2 = (afterRestore vs t newPresent).2) ∧
    (∀ f, sf = some f → (afterRestore vs t newPresent).2.expanded ≠ [] →
      (fireVariables vs t sf newPresent).2 = (afterRestore vs t newPresent).2) ∧
    (∀ f, sf = some f → f.getScopes = [] →
      (fireVariables vs t sf newPresent).2 = (afterRestore vs t newPresent).2) ∧
    (∀ f s rest, sf = some f → f.getScopes = s :: rest → s.expensive = true →
      (fireVariables vs t sf newPresent).2 = (afterRestore vs t newPresent).2) ∧
    (∀ f s rest, sf = some f → f.getScopes = s :: rest → s.expensive = false →
      (afterRestore vs t newPresent).2.expanded = [] →
      (fireVariables vs t sf newPresent).2 =
        expandOne (afterRestore vs t newPresent).2 (.scope s) ∧
      ((afterRestore vs t newPresent).2.present.contains (VElem.scope s) = true →
        (fireVariables vs t sf newPresent).2.expanded = [VElem.scope s])) := by
  rcases hp : afterRestore vs t newPresent with ⟨vs1, t1⟩
  refine ⟨?_, ?_, ?_, ?_, ?_, ?_, ?_⟩
  · rcases sf with _ | f
    · simp [fireVariables, hp]
    · simp only [fireVariables, hp]
      split
      · split
        · split <;> rfl
        · rfl
      · rfl
  · unfold afterRestore at hp
    by_cases hc : t.expanded.length > 0 <;> simp [hc] at hp ⊢ <;>
      rw [← hp.1]
  · rintro rfl
    simp [fireVariables, hp]
  · rintro f rfl hne
    simp only [fireVariables, hp]
    rw [if_neg (by simpa [List.length_eq_zero] using hne)]
  · rintro f rfl hg
    simp [fireVariables, hp, hg]
  · rintro f s rest rfl hg hexp
    simp [fireVariables, hp, hg, hexp]
  · rintro f s rest rfl hg hexp hemp
    have hemp' : t1.expanded = [] := hemp
    constructor
    · simp [fireVariables, hp, hg, hexp, hemp']
    · intro hpres
      have hmem : VElem.scope s ∈ t1.present := by simpa using hpres
      simp [fireVariables, hp, hg, hexp, hemp', expandOne, hmem]

/-- Witness for C3: with no focused stack frame the fired action performs
no default expansion. -/
theorem C3_thm_witness :
    (fireVariables ⟨[]⟩ ⟨[], [], none⟩ none []).2 =
      (afterRestore ⟨[]⟩ ⟨[], [], none⟩ []).2 :=
  (C3_thm ⟨[]⟩ ⟨[], [], none⟩ none []).2.2.1 rfl

/-- Claim C5: `updateTreeSelection` is a no-op when the tree has no input;
with a focused thread it expands the thread's process and the thread and,
when a stack frame is focused, selects and reveals that frame; with no
focused thread but a focused process it selects and reveals the process;
with neither it clears the selection. -/
theorem C5_thm (vm : CSViewModel) (t : SelTree) :
    (t.hasInput = false → updateTreeSelection vm t = t) ∧
    (∀ th f, t.hasInput = true → vm.focusedThread = some th →
      vm.focusedStackFrame = some f →
      updateTreeSelection vm t =
        { expandAllNodes t [.proc th.pid, .thr th] with
            selection := [.frm f], revealed := some (.frm f) } ∧
      CSNode.proc th.pid ∈ (updateTreeSelection vm t).expandedNodes ∧
      CSNode.thr th ∈ (updateTreeSelection vm t).expandedNodes) ∧
    (∀ th, t.hasInput = true → vm.focusedThread = some th →
      vm.focusedStackFrame = none →
      updateTreeSelection vm t = expandAllNodes t [.proc th.pid, .thr th]) ∧
    (∀ p, t.hasInput = true → vm.focusedThread = none →
      vm.focusedProcess = some p →
      updateTreeSelection vm t =
        { t with selection := [.proc p], revealed := some (.proc p) }) ∧
    (t.hasInput = true → vm.focusedThread = none → vm.focusedProcess = none →
      updateTreeSelection vm t = { t with selection := [] }) := by
  have hmem : ∀ (t : SelTree) (th : ThreadRef),
      CSNode.proc th.pid ∈
        (expandAllNodes t [.proc th.pid, .thr th]).expandedNodes ∧
      CSNode.thr th ∈
        (expandAllNodes t [.proc th.pid, .thr th]).expandedNodes := by
    intro t th
    constructor <;>
      (unfold expandAllNodes
       by_cases hc : CSNode.proc th.pid ∈ t.expandedNodes <;>
         by_cases hc2 : CSNode.thr th ∈ t.expandedNodes <;>
           simp [List.mem_append, List.mem_filter, hc, hc2])
  refine ⟨?_, ?_, ?_, ?_, ?_⟩
  · intro h; simp [updateTreeSelection, h]
  · intro th f h hth hf
    refine ⟨by simp [updateTreeSelection, h, hth, hf], ?_, ?_⟩
    · simp only [updateTreeSelection, h, hth, hf]
      simp
      exact (hmem t th).1
    · simp only [updateTreeSelection, h, hth, hf]
      simp
      exact (hmem t th).2
  · intro th h hth hf
    simp [updateTreeSelection, h, hth, hf]
  · intro p h hth hp
    simp [updateTreeSelection, h, hth, hp]
  · intro h hth hp
    simp [updateTreeSelection, h, hth, hp]

/-- Witness for C5: with no tree input the selection update changes
nothing. -/
theorem C5_thm_witness :
    updateTreeSelection ⟨none, none, none⟩ ⟨false, [], [], none⟩ =
      ⟨false, [], [], none⟩ :=
  (C5_thm ⟨none, none, none⟩ ⟨false, [], [], none⟩).1 rfl

/-- Claim C10: the call-stack debounced update chooses the new tree input
as the sole thread of the first process (non-multi-process view,
single-thread case), the first process (non-multi-process view, other
thread counts), or the whole debug model; and it replaces the tree input
only when the choice differs from the current input, merely refreshing
otherwise. -/
theorem C10_thm (isMultiProcessView : Bool) (processes : List DebugProcess)
    (t : CallStackTreeState) :
    (∀ p rest, isMultiProcessView = false → processes = p :: rest →
      (∀ tid, p.getAllThreads = [tid] →
        chooseNewTreeInput isMultiProcessView processes =
          .thread p.pid tid) ∧
      (p.getAllThreads.length ≠ 1 →
        chooseNewTreeInput isMultiProcessView processes = .process p.pid)) ∧
    ((isMultiProcessView = true ∨ processes = []) →
      chooseNewTreeInput isMultiProcessView processes = .model) ∧
    (t.input = some (chooseNewTreeInput isMultiProcessView processes) →
      fireCallStackUpdate isMultiProcessView processes t =
        { t with refreshCount := t.refreshCount + 1 }) ∧
    (t.input ≠ some (chooseNewTreeInput isMultiProcessView processes) →
      fireCallStackUpdate isMultiProcessView processes t =
        { t with
            input := some (chooseNewTreeInput isMultiProcessView processes),
            setInputCount := t.setInputCount + 1 }) := by
  refine ⟨?_, ?_, ?_, ?_⟩
  · rintro p rest rfl rfl
    constructor
    · intro tid htid
      simp [chooseNewTreeInput, htid]
    · intro hlen
      rcases hthreads : p.getAllThreads with _ | ⟨a, _ | ⟨b, tl⟩⟩
      · simp [chooseNewTreeInput, hthreads]
      · exact absurd (by simp [hthreads]) hlen
      · simp [chooseNewTreeInput, hthreads]
  · rintro (rfl | rfl)
    · simp [chooseNewTreeInput]
    · cases isMultiProcessView <;> simp [chooseNewTreeInput]
  · intro h
    simp [fireCallStackUpdate, h]
  · intro h
    simp [fireCallStackUpdate, h]

/-- Witness for C10: with no processes the chosen input is the whole debug
model. -/
theorem C10_thm_witness :
    chooseNewTreeInput false [] = CallStackInput.model :=
  (C10_thm false [] ⟨none, 0, 0⟩).2.1 (Or.inr rfl)

/-- Claim C6: every asynchronous tree-operation chain of the four views
routes its failure, when there is one, to the unexpected-error sink and
propagates nothing: each handler's resulting sink is the previous sink
extended by exactly the chain's error, and a chain contributes at most one
error (no retry or recovery). -/
theorem C6_thm (refreshR scopeR revealR inputR selR highlightR : PResult Unit)
    (expandRs : List (PResult Unit)) (sink : List String) :
    variablesFireReport refreshR expandRs scopeR sink =
      sink ++ errOf (variablesFireChain refreshR expandRs scopeR) ∧
    watchFireReport refreshR revealR sink =
      sink ++ errOf (watchFireChain refreshR revealR) ∧
    callStackFireReport inputR selR sink =
      sink ++ errOf (callStackFireChain inputR selR) ∧
    selectHighlightReport refreshR highlightR sink =
      sink ++ errOf (selectHighlightChain refreshR highlightR) ∧
    focusSelectionReport selR sink = sink ++ errOf selR ∧
    (errOf (variablesFireChain refreshR expandRs scopeR)).length ≤ 1 ∧
    (errOf (watchFireChain refreshR revealR)).length ≤ 1 ∧
    (errOf (callStackFireChain inputR selR)).length ≤ 1 ∧
    (errOf (selectHighlightChain refreshR highlightR)).length ≤ 1 ∧
    (errOf selR).length ≤ 1 := by
  have hrep : ∀ (p : PResult Unit) (sk : List String),
      doneReport p sk = sk ++ errOf p := by
    intro p sk; cases p <;> simp [doneReport, errOf]
  have hlen : ∀ p : PResult Unit, (errOf p).length ≤ 1 := by
    intro p; cases p <;> simp [errOf]
  exact ⟨hrep _ _, hrep _ _, hrep _ _, hrep _ _, hrep _ _,
    hlen _, hlen _, hlen _, hlen _, hlen _⟩

/-- Claim C8: each view's shutdown writes exactly one flag — the negation
of `isExpanded()` — under its own memento key, leaves every other settings
key unchanged, and the four memento keys are pairwise distinct. -/
theorem C8_thm (e : Bool) (s : ViewletSettings) :
    VariablesView.shutdown e s VariablesView.MEMENTO = some (!e) ∧
    (∀ k, k ≠ VariablesView.MEMENTO →
      VariablesView.shutdown e s k = s k) ∧
    WatchExpressionsView.shutdown e s WatchExpressionsView.MEMENTO =
      some (!e) ∧
    (∀ k, k ≠ WatchExpressionsView.MEMENTO →
      WatchExpressionsView.shutdown e s k = s k) ∧
    CallStackView.shutdown e s CallStackView.MEMENTO = some (!e) ∧
    (∀ k, k ≠ CallStackView.MEMENTO → CallStackView.shutdown e s k = s k) ∧
    BreakpointsView.shutdown e s BreakpointsView.MEMENTO = some (!e) ∧
    (∀ k, k ≠ BreakpointsView.MEMENTO →
      BreakpointsView.shutdown e s k = s k) ∧
    VariablesView.MEMENTO ≠ WatchExpressionsView.MEMENTO ∧
    VariablesView.MEMENTO ≠ CallStackView.MEMENTO ∧
    VariablesView.MEMENTO ≠ BreakpointsView.MEMENTO ∧
    WatchExpressionsView.MEMENTO ≠ CallStackView.MEMENTO ∧
    WatchExpressionsView.MEMENTO ≠ BreakpointsView.MEMENTO ∧
    CallStackView.MEMENTO ≠ BreakpointsView.MEMENTO := by
  refine ⟨?_, ?_, ?_, ?_, ?_, ?_, ?_, ?_, ?_, ?_, ?_, ?_, ?_, ?_⟩
  · simp [VariablesView.shutdown, setSetting]
  · intro k hk; simp [VariablesView.shutdown, setSetting, hk]
  · simp [WatchExpressionsView.shutdown, setSetting]
  · intro k hk; simp [WatchExpressionsView.shutdown, setSetting, hk]
  · simp [CallStackView.shutdown, setSetting]
  · intro k hk; simp [CallStackView.shutdown, setSetting, hk]
  · simp [BreakpointsView.shutdown, setSetting]
  · intro k hk; simp [BreakpointsView.shutdown, setSetting, hk]
  all_goals simp [VariablesView.MEMENTO, WatchExpressionsView.MEMENTO,
    CallStackView.MEMENTO, BreakpointsView.MEMENTO]

/-- Witness for C8: a key different from the variables memento key is left
unchanged by the variables shutdown. -/
theorem C8_thm_witness :
    VariablesView.shutdown true (fun _ => none) "other" = none :=
  (C8_thm true (fun _ => none)).2.1 "other"
    (by simp [VariablesView.MEMENTO])
